import Mathlib

/-! Overview.
Shallow embedding of `src/utils/energy-management.ts` (energy tracking,
pattern analysis, study-time selection, suggestions, persona, metrics),
together with the type declarations from `src/types-user-experience.ts`.

Modelling conventions:
* JavaScript numbers are modelled as rationals (`ℚ`); where a computation can
  produce `NaN` (the metrics aggregator), numbers are modelled as `Option ℚ`
  with `none` standing for `NaN`.
* `Date` values and `Date.now()` results are modelled as integer milliseconds
  since the epoch; `getHours`/`getDay` are taken in UTC (the embedding fixes
  the host's local timezone to UTC).
* A JavaScript `Map` is modelled as an association list in insertion order:
  `set` on a fresh key appends, updates happen in place, and iteration
  (`entries`, `forEach`) follows the list order.
* Functions that read the ambient clock (`Date.now()`, `new Date()`) take an
  explicit `now : Int` parameter.
* The `onAccept`/`onDismiss` side-effect hooks of a suggestion (both are
  `console.log` stubs in the source) are omitted from the record.
-/

namespace EnergyMgmt

/-- The five-point energy scale `'very-low' | 'low' | 'medium' | 'high' | 'very-high'`. -/
inductive EnergyLevel where
  | veryLow
  | low
  | medium
  | high
  | veryHigh
deriving DecidableEq, Repr

/-- Helper `energyLevelToNumber`: maps the five levels to 1..5. -/
def energyLevelToNumber : EnergyLevel → ℚ
  | .veryLow => 1
  | .low => 2
  | .medium => 3
  | .high => 4
  | .veryHigh => 5

/-- Sleep quality enum from the optional context object. -/
inductive SleepQuality where
  | poor
  | fair
  | good
  | excellent
deriving DecidableEq, Repr

/-- Meal state enum from the optional context object. -/
inductive MealState where
  | empty
  | light
  | full
deriving DecidableEq, Repr

/-- Stress level enum from the optional context object. -/
inductive StressLevel where
  | low
  | medium
  | high
deriving DecidableEq, Repr

/-- The optional `context` object of an `EnergyDataPoint`. It is carried but
never read by any function in `energy-management.ts`. -/
structure EnergyContext where
  timeOfDay : String
  dayOfWeek : Int
  weather : Option String := none
  sleepQuality : Option SleepQuality := none
  caffeine : Option Bool := none
  exercise : Option Bool := none
  meals : Option MealState := none
  stress : Option StressLevel := none
deriving DecidableEq, Repr

/-- Type `EnergyDataPoint`: one energy observation. `timestamp` is an ISO string in
the source, modelled as epoch milliseconds. -/
structure EnergyDataPoint where
  timestamp : Int
  energyLevel : EnergyLevel
  context : Option EnergyContext := none
  productivity : Option ℚ := none
  sessionCompleted : Option Bool := none
deriving DecidableEq, Repr

/-- Pattern kind `'daily' | 'weekly' | 'monthly'`. -/
inductive PatternType where
  | daily
  | weekly
  | monthly
deriving DecidableEq, Repr

/-- One entry of an `EnergyPattern`'s `pattern` array. -/
structure PatternEntry where
  timeSlot : String
  averageEnergy : ℚ
  confidence : ℚ
deriving DecidableEq, Repr

/-- Type `EnergyPattern`: an aggregate statistic with free-text recommendations. -/
structure EnergyPattern where
  type : PatternType
  pattern : List PatternEntry
  recommendations : List String
deriving DecidableEq, Repr

/-- Per-task-type suitability scores of a `TimeSlot`. -/
structure SuitabilityScores where
  reading : ℚ
  writing : ℚ
  problemSolving : ℚ
  creative : ℚ
  review : ℚ
deriving DecidableEq, Repr

/-- Type `TimeSlot`: a recommended one-hour study window. -/
structure TimeSlot where
  startHour : Int
  endHour : Int
  energyLevel : ℚ
  suitabilityScores : SuitabilityScores
deriving DecidableEq, Repr

/-- Type `TaskType` from `types-user-experience.ts`. -/
inductive TaskType where
  | reading
  | writing
  | problemSolving
  | creative
  | review
  | research
  | practice
  | memorization
deriving DecidableEq, Repr

/-- Type `AdaptivePreferences`: user toggles carried on the profile. -/
structure AdaptivePreferences where
  adjustDifficultyByEnergy : Bool
  suggestBreaksBasedOnEnergy : Bool
  adaptSessionLengthByEnergy : Bool
  enableEnergyNotifications : Bool
  autoRescheduleOnLowEnergy : Bool
  preferredLowEnergyActivities : List TaskType
  preferredHighEnergyActivities : List TaskType
deriving DecidableEq, Repr

/-- Constant `defaultAdaptivePreferences` from the source. -/
def defaultAdaptivePreferences : AdaptivePreferences :=
  { adjustDifficultyByEnergy := true
    suggestBreaksBasedOnEnergy := true
    adaptSessionLengthByEnergy := true
    enableEnergyNotifications := true
    autoRescheduleOnLowEnergy := false
    preferredLowEnergyActivities := [.reading, .review]
    preferredHighEnergyActivities := [.problemSolving, .creative, .writing] }

/-- Type `UserEnergyProfile`: the per-user aggregate. `lastUpdated` is an ISO
string in the source, modelled as epoch milliseconds. -/
structure UserEnergyProfile where
  currentEnergyLevel : EnergyLevel
  energyHistory : List EnergyDataPoint
  optimalStudyTimes : List TimeSlot
  energyPatterns : List EnergyPattern
  lastUpdated : Int
  adaptivePreferences : AdaptivePreferences
deriving DecidableEq, Repr

/-- Models `new Date(t).getHours()` in UTC: hour-of-day 0..23 of an epoch-millisecond
timestamp. -/
def jsGetHours (t : Int) : Int :=
  (t.ediv 3600000).emod 24

/-- Models `new Date(t).getDay()` in UTC: day-of-week 0..6 (0 = Sunday) of an
epoch-millisecond timestamp; the epoch (1970-01-01) was a Thursday (4). -/
def jsGetDay (t : Int) : Int :=
  ((t.ediv 86400000) + 4).emod 7

/-- Code-unit-wise strict comparison of strings, as JavaScript `<` compares
strings (all string literals in this code are ASCII, where UTF-16 code-unit
order coincides with codepoint order). -/
def charListLt : List Char → List Char → Bool
  | _, [] => false
  | [], _ :: _ => true
  | a :: as, b :: bs =>
    if a.val < b.val then true
    else if b.val < a.val then false
    else charListLt as bs

/-- JavaScript `a <= b` on strings, i.e. `!(b < a)`. -/
def jsStrLe (a b : String) : Bool :=
  ! charListLt b.data a.data

/-- Hourly aggregate record `{ total, count, energySum }` used by the daily
pattern analysis; `total` is initialised to 0 and never updated. -/
structure HourAgg where
  total : ℚ
  count : Nat
  energySum : ℚ
deriving DecidableEq, Repr

/-- Weekly aggregate record `{ energySum, count }`. -/
structure WeekAgg where
  energySum : ℚ
  count : Nat
deriving DecidableEq, Repr

/-- One `forEach` step of the daily grouping: create the entry on first sight
of the hour (appending, as a JS `Map` iterates in insertion order), then
increment `count` and add the energy value. -/
def bumpHour (m : List (Int × HourAgg)) (h : Int) (v : ℚ) : List (Int × HourAgg) :=
  match m with
  | [] => [(h, { total := 0, count := 1, energySum := v })]
  | e :: rest =>
    if e.1 = h then
      (e.1, { e.2 with count := e.2.count + 1, energySum := e.2.energySum + v }) :: rest
    else
      e :: bumpHour rest h v

/-- The `hourlyData` map of `analyzePatternsFromHistory`, keyed by hour-of-day
in insertion order. -/
def buildHourlyData (history : List EnergyDataPoint) : List (Int × HourAgg) :=
  history.foldl
    (fun m point => bumpHour m (jsGetHours point.timestamp) (energyLevelToNumber point.energyLevel)) []

/-- One `forEach` step of the weekly grouping. -/
def bumpDay (m : List (Int × WeekAgg)) (d : Int) (v : ℚ) : List (Int × WeekAgg) :=
  match m with
  | [] => [(d, { energySum := v, count := 1 })]
  | e :: rest =>
    if e.1 = d then
      (e.1, { e.2 with count := e.2.count + 1, energySum := e.2.energySum + v }) :: rest
    else
      e :: bumpDay rest d v

/-- The `weeklyData` map of `analyzePatternsFromHistory`, keyed by day-of-week
in insertion order. -/
def buildWeeklyData (history : List EnergyDataPoint) : List (Int × WeekAgg) :=
  history.foldl
    (fun m point => bumpDay m (jsGetDay point.timestamp) (energyLevelToNumber point.energyLevel)) []

/-- Helper `getDayName`: index into the weekday-name array. -/
def getDayName (dayIndex : Int) : String :=
  ["Sunday", "Monday", "Tuesday", "Wednesday", "Thursday", "Friday", "Saturday"].getD dayIndex.toNat ""

/-- Models the JS expression `hourlyData.get(max)?.[0] || 0` of
`generateDailyRecommendations`: the aggregate record has no property named
`0`, so the optional chain yields `undefined` and the `||` fallback makes the
whole expression 0 on every step of the reduction. The analogous expression
`weeklyData.get(max)?.[0] || 0` in `generateWeeklyRecommendations` behaves
identically. -/
def aggIndexZeroOrZero : ℚ := 0

/-- Helper `generateDailyRecommendations`: reduce over the map entries with
accumulator starting at 0; a candidate hour replaces the accumulator whenever
its average energy exceeds `hourlyData.get(max)?.[0] || 0` (always 0, see
`aggIndexZeroOrZero`). -/
def generateDailyRecommendations (hourlyData : List (Int × HourAgg)) : List String :=
  let peakHour := hourlyData.foldl
    (fun max e => if aggIndexZeroOrZero < e.2.energySum / (e.2.count : ℚ) then e.1 else max) 0
  ["Your peak energy hour is " ++ toString peakHour ++ ":00 - schedule important tasks then"]

/-- Helper `generateWeeklyRecommendations`: same reduction shape as
`generateDailyRecommendations`, over the weekly map. -/
def generateWeeklyRecommendations (weeklyData : List (Int × WeekAgg)) : List String :=
  let bestDay := weeklyData.foldl
    (fun max e => if aggIndexZeroOrZero < e.2.energySum / (e.2.count : ℚ) then e.1 else max) 0
  [getDayName bestDay ++ " is your most productive day"]

/-- Function `analyzePatternsFromHistory`: returns `[]` for histories shorter than 7
samples, otherwise the daily pattern followed by the weekly pattern. -/
def analyzePatternsFromHistory (history : List EnergyDataPoint) : List EnergyPattern :=
  if history.length < 7 then []
  else
    let hourlyData := buildHourlyData history
    let dailyPattern : EnergyPattern :=
      { type := .daily
        pattern := hourlyData.map (fun e =>
          { timeSlot := toString e.1 ++ ":00"
            averageEnergy := e.2.energySum / (e.2.count : ℚ)
            confidence := min ((e.2.count : ℚ) / 7) 1 })
        recommendations := generateDailyRecommendations hourlyData }
    let weeklyData := buildWeeklyData history
    let weeklyPattern : EnergyPattern :=
      { type := .weekly
        pattern := weeklyData.map (fun e =>
          { timeSlot := getDayName e.1
            averageEnergy := e.2.energySum / (e.2.count : ℚ)
            confidence := min ((e.2.count : ℚ) / 4) 1 })
        recommendations := generateWeeklyRecommendations weeklyData }
    [dailyPattern, weeklyPattern]

/-- Per-hour performance record `{ energySum, productivitySum, count,
completionRate }` of `calculateOptimalStudyTimes`; the `completionRate` field
is used as a completed-session counter during accumulation. -/
structure PerfAgg where
  energySum : ℚ
  productivitySum : ℚ
  count : Nat
  completionRate : ℚ
deriving DecidableEq, Repr

/-- One `forEach` step of the hourly-performance grouping: `count++`,
`energySum += energyValue`, `if (point.productivity) productivitySum += it`
(JS truthiness: only a present, non-zero productivity is added), and
`if (point.sessionCompleted) completionRate++` (only a present `true` flag
counts). -/
def bumpPerf (m : List (Int × PerfAgg)) (h : Int) (point : EnergyDataPoint) : List (Int × PerfAgg) :=
  let step : PerfAgg → PerfAgg := fun a =>
    { a with
      count := a.count + 1
      energySum := a.energySum + energyLevelToNumber point.energyLevel
      productivitySum := a.productivitySum +
        (match point.productivity with
         | some v => if v = 0 then 0 else v
         | none => 0)
      completionRate := a.completionRate + (if point.sessionCompleted = some true then 1 else 0) }
  match m with
  | [] => [(h, step { energySum := 0, productivitySum := 0, count := 0, completionRate := 0 })]
  | e :: rest =>
    if e.1 = h then (e.1, step e.2) :: rest
    else e :: bumpPerf rest h point

/-- The `hourlyPerformance` map of `calculateOptimalStudyTimes`, keyed by
hour-of-day in insertion order. -/
def buildHourlyPerformance (history : List EnergyDataPoint) : List (Int × PerfAgg) :=
  history.foldl (fun m point => bumpPerf m (jsGetHours point.timestamp) point) []

/-- Helper `calculateSuitabilityScores`: bounded weighted combinations of
energy and productivity per task type. -/
def calculateSuitabilityScores (energy : ℚ) (productivity : ℚ) : SuitabilityScores :=
  { reading := min 100 (energy * 20 + productivity * 5)
    writing := min 100 (energy * 25 + productivity * 10)
    problemSolving := min 100 (energy * 30 + productivity * 15)
    creative := min 100 (energy * 25 + productivity * 12)
    review := min 100 (energy * 15 + productivity * 8) }

/-- The body of the `hourlyPerformance.forEach` loop of
`calculateOptimalStudyTimes`: emit a slot for an hour only when its average
energy is at least 3 and its completion rate at least 0.7. Every map entry has
`count ≥ 1`, so the divisions are finite and the `|| 0` on the average
productivity (which replaces a falsy 0 by 0) is the identity on rationals. -/
def slotForHour (e : Int × PerfAgg) : Option TimeSlot :=
  let avgEnergy := e.2.energySum / (e.2.count : ℚ)
  let avgProductivity := e.2.productivitySum / (e.2.count : ℚ)
  let completionRate := e.2.completionRate / (e.2.count : ℚ)
  if 3 ≤ avgEnergy ∧ 7 / 10 ≤ completionRate then
    some
      { startHour := e.1
        endHour := e.1 + 1
        energyLevel := avgEnergy
        suitabilityScores := calculateSuitabilityScores avgEnergy avgProductivity }
  else none

/-- Function `calculateOptimalStudyTimes`: returns `[]` for histories shorter than 7
samples, otherwise the qualifying hourly slots sorted descending by energy
level (`sort((a, b) => b.energyLevel - a.energyLevel)`). -/
def calculateOptimalStudyTimes (history : List EnergyDataPoint) : List TimeSlot :=
  if history.length < 7 then []
  else
    let perf := buildHourlyPerformance history
    let timeSlots := perf.filterMap slotForHour
    timeSlots.mergeSort (fun a b => b.energyLevel ≤ a.energyLevel)

/-- The `EnergyDataPoint` built by `recordEnergyData`, stamped with the current
time. -/
def newDataPoint (now : Int) (energyLevel : EnergyLevel) (context : Option EnergyContext)
    (productivity : Option ℚ) (sessionCompleted : Option Bool) : EnergyDataPoint :=
  { timestamp := now
    energyLevel := energyLevel
    context := context
    productivity := productivity
    sessionCompleted := sessionCompleted }

/-- The `filteredHistory` of `recordEnergyData`: append the new point, then
keep only points with `new Date(point.timestamp) > thirtyDaysAgo` (strictly
newer than `now - 30` days). -/
def prunedHistory (p : UserEnergyProfile) (now : Int) (energyLevel : EnergyLevel)
    (context : Option EnergyContext) (productivity : Option ℚ)
    (sessionCompleted : Option Bool) : List EnergyDataPoint :=
  let updatedHistory := p.energyHistory ++ [newDataPoint now energyLevel context productivity sessionCompleted]
  let thirtyDaysAgo := now - 30 * 24 * 60 * 60 * 1000
  updatedHistory.filter (fun point => thirtyDaysAgo < point.timestamp)

/-- Function `recordEnergyData`: append the stamped sample, prune to the 30-day window,
and return the profile with the current level, the pruned history and the
patterns/optimal times recomputed from it. -/
def recordEnergyData (currentProfile : UserEnergyProfile) (now : Int)
    (energyLevel : EnergyLevel) (context : Option EnergyContext) (productivity : Option ℚ)
    (sessionCompleted : Option Bool) : UserEnergyProfile :=
  let filteredHistory := prunedHistory currentProfile now energyLevel context productivity sessionCompleted
  { currentProfile with
    currentEnergyLevel := energyLevel
    energyHistory := filteredHistory
    lastUpdated := now
    energyPatterns := analyzePatternsFromHistory filteredHistory
    optimalStudyTimes := calculateOptimalStudyTimes filteredHistory }

/-- Suggestion kind `'energy-based' | 'context-based' | 'pattern-based' | 'urgent'`. -/
inductive SuggestionType where
  | energyBased
  | contextBased
  | patternBased
  | urgent
deriving DecidableEq, Repr

/-- Suggestion priority `'low' | 'medium' | 'high' | 'critical'`. -/
inductive Priority where
  | low
  | medium
  | high
  | critical
deriving DecidableEq, Repr

/-- Suggestion category; `takeBreak` models the string tag `'break'`. -/
inductive Category where
  | scheduling
  | energy
  | productivity
  | takeBreak
  | session
deriving DecidableEq, Repr

/-- Type `SmartSuggestion` without the `onAccept`/`onDismiss` hooks (both are
`console.log` stubs in the source). -/
structure SmartSuggestion where
  id : String
  type : SuggestionType
  priority : Priority
  title : String
  description : String
  actionText : String
  expiresAt : Option String := none
  icon : String
  category : Category
deriving DecidableEq, Repr

/-- Type `RealTimeContext`; `currentTime` is a `Date`, modelled as epoch
milliseconds. Only `currentTime` is read by the suggestion generator. -/
structure RealTimeContext where
  currentTime : Int
  dayOfWeek : Int
  userPresence : String
  deviceType : String
  networkStatus : String
  batteryLevel : Option ℚ := none
deriving DecidableEq, Repr

/-- Task record from `src/types.ts` (that file is not among the sources). The
suggestion generator reads exactly two fields: `status` (compared against the
string `'completed'`) and `taskType`. -/
structure Task where
  status : String
  taskType : TaskType
deriving DecidableEq, Repr

/-- Study-plan record from `src/types.ts` (not among the sources); it is a
parameter of the suggestion generator and the metrics aggregator but is never
read by either. -/
structure StudyPlan where
  id : String
deriving DecidableEq, Repr

/-- Type `SessionFeedback`; the metrics aggregator reads only `focusRating`. -/
structure SessionFeedback where
  sessionId : String
  timestamp : Int
  difficultyRating : ℚ
  energyBefore : ℚ
  energyAfter : ℚ
  focusRating : ℚ
  environmentRating : ℚ
  satisfaction : ℚ
  distractions : List String
  notes : Option String := none
  recommendNextSession : Option Bool := none
deriving DecidableEq, Repr

/-- Type `ProductivityMetrics`; each JS number field is modelled as `Option ℚ`,
with `none` standing for `NaN`. -/
structure ProductivityMetrics where
  focusScore : Option ℚ
  completionRate : Option ℚ
  consistencyScore : Option ℚ
  energyUtilization : Option ℚ
  adaptationSuccess : Option ℚ
  streakQuality : Option ℚ
  timeOptimization : Option ℚ
deriving DecidableEq, Repr

/-- Type `UserPersona`. -/
structure UserPersona where
  type : String
  characteristics : List String
  optimalScheduling : List String
  challenges : List String
  recommendations : List String
  confidenceLevel : ℚ
deriving DecidableEq, Repr

/-- The slice of `RealTimeUserExperience` read by the functions under study:
the suggestion generator reads `energyProfile` and `currentContext`. -/
structure RealTimeUserExperience where
  energyProfile : UserEnergyProfile
  currentContext : RealTimeContext
deriving DecidableEq, Repr

/-- The low-energy suggestion pushed when the current level is very-low or
low. -/
def lowEnergySuggestion (now : Int) : SmartSuggestion :=
  { id := "energy-low-" ++ toString now
    type := .energyBased
    priority := .high
    title := "Low Energy Detected"
    description := "Consider taking a break or switching to lighter tasks like reading or review."
    actionText := "Suggest Light Tasks"
    icon := "😴"
    category := .energy }

/-- The high-energy suggestion pushed when the level is high/very-high and a
difficult incomplete task exists. -/
def highEnergySuggestion (now : Int) : SmartSuggestion :=
  { id := "energy-high-" ++ toString now
    type := .energyBased
    priority := .medium
    title := "High Energy - Perfect for Challenging Tasks!"
    description := "You have high energy right now. Great time for problem-solving or creative work."
    actionText := "Start Difficult Task"
    icon := "⚡"
    category := .scheduling }

/-- The optimal-time suggestion pushed when the current hour falls inside an
optimal study window. -/
def optimalTimeSuggestion (now : Int) : SmartSuggestion :=
  { id := "optimal-time-" ++ toString now
    type := .patternBased
    priority := .medium
    title := "This is your optimal study time!"
    description := "Based on your patterns, you\x27re most productive at this time."
    actionText := "Start Study Session"
    icon := "🎯"
    category := .scheduling }

/-- The break suggestion pushed after dense recent activity. -/
def breakSuggestion (now : Int) : SmartSuggestion :=
  { id := "break-suggestion-" ++ toString now
    type := .contextBased
    priority := .medium
    title := "Time for a break?"
    description := "You\x27ve been working for a while. A short break might help maintain your energy."
    actionText := "Take Break"
    icon := "☕"
    category := .takeBreak }

/-- Function `generateSmartSuggestions`: evaluate the four push rules in order and
return the concatenation of their results. `now` models `Date.now()`. -/
def generateSmartSuggestions (userExperience : RealTimeUserExperience) (tasks : List Task)
    (studyPlans : List StudyPlan) (now : Int) : List SmartSuggestion :=
  let energyProfile := userExperience.energyProfile
  let currentContext := userExperience.currentContext
  let s1 : List SmartSuggestion :=
    if energyProfile.currentEnergyLevel = .veryLow ∨ energyProfile.currentEnergyLevel = .low then
      [lowEnergySuggestion now]
    else []
  let difficultTasks := tasks.filter (fun task =>
    task.status ≠ "completed" ∧ (task.taskType = .problemSolving ∨ task.taskType = .creative))
  let s2 : List SmartSuggestion :=
    if energyProfile.currentEnergyLevel = .high ∨ energyProfile.currentEnergyLevel = .veryHigh then
      if 0 < difficultTasks.length then [highEnergySuggestion now] else []
    else []
  let currentHour := jsGetHours currentContext.currentTime
  let optimalTime := energyProfile.optimalStudyTimes.find? (fun slot =>
    slot.startHour ≤ currentHour ∧ currentHour < slot.endHour)
  let s3 : List SmartSuggestion :=
    match optimalTime with
    | some _ => [optimalTimeSuggestion now]
    | none => []
  let hourAgo := now - 60 * 60 * 1000
  let recentActivity := energyProfile.energyHistory.filter (fun point => hourAgo < point.timestamp)
  let s4 : List SmartSuggestion :=
    if 4 ≤ recentActivity.length ∧
        (recentActivity.any fun point => point.energyLevel = .low) = false then
      [breakSuggestion now]
    else []
  s1 ++ (s2 ++ (s3 ++ s4))

/-- The fixed `inconsistent` persona returned when no daily pattern exists. -/
def inconsistentPersona : UserPersona :=
  { type := "inconsistent"
    characteristics := ["Insufficient data for pattern recognition"]
    optimalScheduling := ["Start with flexible scheduling"]
    challenges := ["Building consistent habits"]
    recommendations := ["Track energy levels for a few more days"]
    confidenceLevel := 1 / 10 }

/-- The fixed `early-bird` persona. -/
def earlyBirdPersona : UserPersona :=
  { type := "early-bird"
    characteristics := ["High morning energy", "Prefers early starts", "Productive in first half of day"]
    optimalScheduling := ["Schedule important tasks 6-10 AM", "Light tasks in afternoon"]
    challenges := ["Maintaining energy in evenings", "Late deadlines"]
    recommendations := ["Front-load your day", "Plan easier tasks for afternoons"]
    confidenceLevel := 4 / 5 }

/-- The fixed `night-owl` persona. -/
def nightOwlPersona : UserPersona :=
  { type := "night-owl"
    characteristics := ["Higher evening energy", "Slow morning starts", "Peak performance later"]
    optimalScheduling := ["Light tasks in morning", "Important work 6-10 PM"]
    challenges := ["Morning commitments", "Early deadlines"]
    recommendations := ["Save challenging work for evening", "Use mornings for routine tasks"]
    confidenceLevel := 4 / 5 }

/-- The fixed `flexible` persona. -/
def flexiblePersona : UserPersona :=
  { type := "flexible"
    characteristics := ["Consistent energy throughout day", "Adaptable to schedules"]
    optimalScheduling := ["Balanced throughout day", "Can adapt to constraints"]
    challenges := ["May lack strong optimization opportunities"]
    recommendations := ["Focus on task prioritization", "Optimize based on other factors"]
    confidenceLevel := 7 / 10 }

/-- Function `determineUserPersona`: without a daily pattern return `inconsistent`;
otherwise compare morning and evening energy, each the sum of the average
energies of the pattern entries whose `timeSlot` label lies lexically
(JavaScript string `>=`/`<=`) within the quoted bounds, divided by the fixed
divisor 4. -/
def determineUserPersona (energyProfile : UserEnergyProfile) : UserPersona :=
  match energyProfile.energyPatterns.find? (fun p => p.type = .daily) with
  | none => inconsistentPersona
  | some dailyPattern =>
    let morningEnergy :=
      ((dailyPattern.pattern.filter (fun p =>
          jsStrLe "06:00" p.timeSlot && jsStrLe p.timeSlot "10:00")).foldl
        (fun sum p => sum + p.averageEnergy) (0 : ℚ)) / 4
    let eveningEnergy :=
      ((dailyPattern.pattern.filter (fun p =>
          jsStrLe "18:00" p.timeSlot && jsStrLe p.timeSlot "22:00")).foldl
        (fun sum p => sum + p.averageEnergy) (0 : ℚ)) / 4
    if eveningEnergy + 1 / 2 < morningEnergy then earlyBirdPersona
    else if morningEnergy + 1 / 2 < eveningEnergy then nightOwlPersona
    else flexiblePersona

/-- JS addition lifted to `Option ℚ` (`none` = `NaN`). -/
def jsAddN : Option ℚ → Option ℚ → Option ℚ
  | some a, some b => some (a + b)
  | _, _ => none

/-- JS subtraction lifted to `Option ℚ` (`none` = `NaN`). -/
def jsSubN : Option ℚ → Option ℚ → Option ℚ
  | some a, some b => some (a - b)
  | _, _ => none

/-- JS multiplication lifted to `Option ℚ` (`none` = `NaN`). -/
def jsMulN : Option ℚ → Option ℚ → Option ℚ
  | some a, some b => some (a * b)
  | _, _ => none

/-- JS division lifted to `Option ℚ`: a zero divisor yields `none`; in this
code the only zero-divisor case is `0 / 0`, which is `NaN` in JavaScript. -/
def jsDivN : Option ℚ → Option ℚ → Option ℚ
  | some a, some b => if b = 0 then none else some (a / b)
  | _, _ => none

/-- Models `Math.max` lifted to `Option ℚ`: `Math.max` returns `NaN` when any
argument is `NaN`. -/
def jsMaxN : Option ℚ → Option ℚ → Option ℚ
  | some a, some b => some (max a b)
  | _, _ => none

/-- Models `Math.round` on a finite value: round half toward positive infinity;
`Math.round(NaN)` is `NaN`. -/
def jsRoundN : Option ℚ → Option ℚ :=
  Option.map (fun q => ((⌊q + 1 / 2⌋ : Int) : ℚ))

/-- Helper `calculateEnergyUtilization`: fraction of completed high-energy
samples, defaulting to 50 without high-energy samples. -/
def calculateEnergyUtilization (profile : UserEnergyProfile)
    (recentData : List EnergyDataPoint) : ℚ :=
  let highEnergyData := recentData.filter (fun d =>
    d.energyLevel = .high ∨ d.energyLevel = .veryHigh)
  let utilizedHighEnergy := (highEnergyData.filter (fun d => d.sessionCompleted = some true)).length
  if 0 < highEnergyData.length then
    ((utilizedHighEnergy : ℚ) / (highEnergyData.length : ℚ)) * 100
  else 50

/-- Function `calculateProductivityMetrics` over the last 14 history samples
(`slice(-14)`). The consistency pipeline follows JS float semantics through
`Option ℚ`: over an empty window the average and the variance are `0 / 0 =
NaN` and `Math.max(0, 100 - NaN * 20)` stays `NaN`. -/
def calculateProductivityMetrics (energyProfile : UserEnergyProfile)
    (recentFeedback : List SessionFeedback) (studyPlans : List StudyPlan) : ProductivityMetrics :=
  let recentData := energyProfile.energyHistory.drop (energyProfile.energyHistory.length - 14)
  let focusScore : ℚ :=
    if 0 < recentFeedback.length then
      (recentFeedback.foldl (fun sum f => sum + f.focusRating * 20) 0) / (recentFeedback.length : ℚ)
    else 50
  let completedSessions := (recentData.filter (fun d => d.sessionCompleted = some true)).length
  let completionRate : ℚ :=
    if 0 < recentData.length then ((completedSessions : ℚ) / (recentData.length : ℚ)) * 100
    else 0
  let energyValues := recentData.map (fun d => energyLevelToNumber d.energyLevel)
  let avgEnergy : Option ℚ :=
    jsDivN (some (energyValues.foldl (fun sum e => sum + e) 0)) (some (energyValues.length : ℚ))
  let variance : Option ℚ :=
    jsDivN
      (energyValues.foldl
        (fun sum e => jsAddN sum (jsMulN (jsSubN (some e) avgEnergy) (jsSubN (some e) avgEnergy)))
        (some 0))
      (some (energyValues.length : ℚ))
  let consistencyScore : Option ℚ := jsMaxN (some 0) (jsSubN (some 100) (jsMulN variance (some 20)))
  let energyUtilization := calculateEnergyUtilization energyProfile recentData
  { focusScore := jsRoundN (some focusScore)
    completionRate := jsRoundN (some completionRate)
    consistencyScore := jsRoundN consistencyScore
    energyUtilization := jsRoundN (some energyUtilization)
    adaptationSuccess := some 75
    streakQuality := some 80
    timeOptimization := some 70 }

/-! Concrete fixtures used by the theorems below. -/

/-- History of 7 samples: one at 09:00 UTC on 1970-01-01 at level very-high
(value 5), then six on consecutive days at 10:00 UTC at level very-low
(value 1). The hour of maximal average energy is 9; hour 10 is iterated
last. -/
def histC1 : List EnergyDataPoint :=
  [⟨32400000, .veryHigh, none, none, none⟩,
   ⟨36000000, .veryLow, none, none, none⟩,
   ⟨122400000, .veryLow, none, none, none⟩,
   ⟨208800000, .veryLow, none, none, none⟩,
   ⟨295200000, .veryLow, none, none, none⟩,
   ⟨381600000, .veryLow, none, none, none⟩,
   ⟨468000000, .veryLow, none, none, none⟩]

/-- A daily pattern as the pattern analyzer labels its slots (hour labels are
not zero-padded): average energy 5 at 6 AM, 2 at 6 PM. -/
def dailyC2 : EnergyPattern :=
  { type := .daily
    pattern := [⟨"6:00", 5, 1⟩, ⟨"18:00", 2, 1⟩]
    recommendations := [] }

/-- Profile carrying `dailyC2` as its only pattern. -/
def profileC2 : UserEnergyProfile :=
  { currentEnergyLevel := .medium
    energyHistory := []
    optimalStudyTimes := []
    energyPatterns := [dailyC2]
    lastUpdated := 0
    adaptivePreferences := defaultAdaptivePreferences }

/-- Profile holding a single sample stamped at the epoch (timestamp 0). -/
def pC3 : UserEnergyProfile :=
  { currentEnergyLevel := .medium
    energyHistory := [⟨0, .medium, none, none, none⟩]
    optimalStudyTimes := []
    energyPatterns := []
    lastUpdated := 0
    adaptivePreferences := defaultAdaptivePreferences }

/-- History of 7 samples on consecutive days, all at 09:00 UTC, level high
(value 4), session completed. -/
def history7 : List EnergyDataPoint :=
  [⟨32400000, .high, none, none, some true⟩,
   ⟨118800000, .high, none, none, some true⟩,
   ⟨205200000, .high, none, none, some true⟩,
   ⟨291600000, .high, none, none, some true⟩,
   ⟨378000000, .high, none, none, some true⟩,
   ⟨464400000, .high, none, none, some true⟩,
   ⟨550800000, .high, none, none, some true⟩]

/-- The time slot the optimal-window selector emits for `history7`. -/
def slot9 : TimeSlot :=
  { startHour := 9
    endHour := 10
    energyLevel := 4
    suitabilityScores := { reading := 80, writing := 100, problemSolving := 100, creative := 100, review := 60 } }

/-- One energy sample at level medium, 1 second before `Date.now() = 4000000`. -/
def pointC6 : EnergyDataPoint := ⟨3999000, .medium, none, none, none⟩

/-- User experience at level very-low with four medium samples recorded in the
last 60 minutes, no optimal study windows and no patterns. -/
def ueC6 : RealTimeUserExperience :=
  { energyProfile :=
      { currentEnergyLevel := .veryLow
        energyHistory := [pointC6, pointC6, pointC6, pointC6]
        optimalStudyTimes := []
        energyPatterns := []
        lastUpdated := 0
        adaptivePreferences := defaultAdaptivePreferences }
    currentContext :=
      { currentTime := 4000000, dayOfWeek := 4, userPresence := "active"
        deviceType := "desktop", networkStatus := "online" } }

/-- User experience at level very-low with an empty energy history. -/
def ueC6w : RealTimeUserExperience :=
  { energyProfile :=
      { currentEnergyLevel := .veryLow
        energyHistory := []
        optimalStudyTimes := []
        energyPatterns := []
        lastUpdated := 0
        adaptivePreferences := defaultAdaptivePreferences }
    currentContext :=
      { currentTime := 0, dayOfWeek := 4, userPresence := "active"
        deviceType := "desktop", networkStatus := "online" } }

/-- Profile with empty history used by the metrics example. -/
def profileC7 : UserEnergyProfile :=
  { currentEnergyLevel := .medium
    energyHistory := []
    optimalStudyTimes := []
    energyPatterns := []
    lastUpdated := 0
    adaptivePreferences := defaultAdaptivePreferences }

/-- A single session feedback with `focusRating = 5`. -/
def feedbackC7 : SessionFeedback :=
  { sessionId := "s1"
    timestamp := 0
    difficultyRating := 3
    energyBefore := 3
    energyAfter := 3
    focusRating := 5
    environmentRating := 3
    satisfaction := 3
    distractions := [] }

/-- User experience at level medium with four medium samples recorded in the
last 60 minutes before `Date.now() = 4000000`. -/
def ueC8 : RealTimeUserExperience :=
  { energyProfile :=
      { currentEnergyLevel := .medium
        energyHistory :=
          [⟨3999000, .medium, none, none, none⟩, ⟨3998000, .medium, none, none, none⟩,
           ⟨3997000, .medium, none, none, none⟩, ⟨3996000, .medium, none, none, none⟩]
        optimalStudyTimes := []
        energyPatterns := []
        lastUpdated := 0
        adaptivePreferences := defaultAdaptivePreferences }
    currentContext :=
      { currentTime := 4000000, dayOfWeek := 4, userPresence := "active"
        deviceType := "desktop", networkStatus := "online" } }

/-- Profile whose pattern list is empty. -/
def profileC9 : UserEnergyProfile :=
  { currentEnergyLevel := .medium
    energyHistory := []
    optimalStudyTimes := []
    energyPatterns := []
    lastUpdated := 0
    adaptivePreferences := defaultAdaptivePreferences }

/-! Theorems. -/

/-- C4: for every history with fewer than 7 samples, the pattern analyzer and
the optimal-window selector both return the empty list (silent
insufficient-data result, not an error). -/
theorem insufficientHistoryYieldsEmpty (history : List EnergyDataPoint)
    (h : history.length < 7) :
    analyzePatternsFromHistory history = [] ∧ calculateOptimalStudyTimes history = [] := by
  constructor
  · unfold analyzePatternsFromHistory
    rw [if_pos h]
  · unfold calculateOptimalStudyTimes
    rw [if_pos h]

/-- C4 witness: the empty history has fewer than 7 samples and both analyzers
return the empty list on it. -/
theorem insufficientHistoryYieldsEmpty_witness :
    ([] : List EnergyDataPoint).length < 7 ∧
      (analyzePatternsFromHistory [] = [] ∧ calculateOptimalStudyTimes [] = []) :=
  ⟨by decide, insufficientHistoryYieldsEmpty [] (by decide)⟩

/-- C9: for every profile whose pattern list contains no daily pattern,
`determineUserPersona` returns type `inconsistent` with confidence exactly
0.1. -/
theorem personaInconsistentWithoutDailyPattern (profile : UserEnergyProfile)
    (h : ∀ p ∈ profile.energyPatterns, p.type ≠ PatternType.daily) :
    (determineUserPersona profile).type = "inconsistent" ∧
      (determineUserPersona profile).confidenceLevel = 1 / 10 := by
  have hfind : profile.energyPatterns.find? (fun p => p.type = PatternType.daily) = none := by
    rw [List.find?_eq_none]
    intro p hp
    simpa using h p hp
  unfold determineUserPersona
  rw [hfind]
  exact ⟨rfl, rfl⟩

/-- C9 witness: a profile with an empty pattern list is classified
`inconsistent` with confidence 0.1. -/
theorem personaInconsistentWithoutDailyPattern_witness :
    (determineUserPersona profileC9).type = "inconsistent" ∧
      (determineUserPersona profileC9).confidenceLevel = 1 / 10 :=
  personaInconsistentWithoutDailyPattern profileC9 (by decide)

/-- C10: `recordEnergyData` keeps `adaptivePreferences`, sets
`currentEnergyLevel` to the recorded level, and recomputes `energyPatterns`
and `optimalStudyTimes` from the pruned history; the input profile is a pure
value and is never mutated (the embedding is functional, as is the source's
spread-update). -/
theorem recordEnergyDataFrame (p : UserEnergyProfile) (now : Int) (level : EnergyLevel)
    (context : Option EnergyContext) (productivity : Option ℚ)
    (sessionCompleted : Option Bool) :
    (recordEnergyData p now level context productivity sessionCompleted).adaptivePreferences =
        p.adaptivePreferences ∧
      (recordEnergyData p now level context productivity sessionCompleted).currentEnergyLevel =
        level ∧
      (recordEnergyData p now level context productivity sessionCompleted).energyHistory =
        prunedHistory p now level context productivity sessionCompleted ∧
      (recordEnergyData p now level context productivity sessionCompleted).energyPatterns =
        analyzePatternsFromHistory (prunedHistory p now level context productivity sessionCompleted) ∧
      (recordEnergyData p now level context productivity sessionCompleted).optimalStudyTimes =
        calculateOptimalStudyTimes (prunedHistory p now level context productivity sessionCompleted) :=
  ⟨rfl, rfl, rfl, rfl, rfl⟩

/-- C3 counterexample: a sample exactly 30 days old at the time of the append
(timestamp 0, appending at `now = 2592000000 = 30 * 24 * 60 * 60 * 1000`) is
removed by `recordEnergyData`, contradicting the claim that a sample exactly
30 days old is retained (inclusive boundary). -/
theorem thirtyDayBoundarySampleDropped :
    (2592000000 : Int) - 30 * 24 * 60 * 60 * 1000 = 0 ∧
      (recordEnergyData pC3 2592000000 .medium none none none).energyHistory =
        [newDataPoint 2592000000 .medium none none none] := by decide

/-- C3 amended: after `recordEnergyData`, the returned history contains
exactly the samples strictly newer than 30 days before the time of the
append; strictly older samples and the sample exactly 30 days old are removed
(exclusive boundary). -/
theorem recordPrunesStrictly (p : UserEnergyProfile) (now : Int) (level : EnergyLevel)
    (context : Option EnergyContext) (productivity : Option ℚ)
    (sessionCompleted : Option Bool) (pt : EnergyDataPoint) :
    pt ∈ (recordEnergyData p now level context productivity sessionCompleted).energyHistory ↔
      ((pt ∈ p.energyHistory ∨ pt = newDataPoint now level context productivity sessionCompleted) ∧
        now - 30 * 24 * 60 * 60 * 1000 < pt.timestamp) := by
  show pt ∈ prunedHistory p now level context productivity sessionCompleted ↔ _
  unfold prunedHistory
  simp [List.mem_filter, List.mem_append, or_and_right]

/-- C1: on `histC1` the hour of maximal average energy is 9 (average 5 versus
1 for hour 10) and the day of maximal average energy is Thursday (average 3
versus 1 for every other day), yet the generated recommendations name 10:00
and Tuesday — the hour and day iterated last — because the reduction's
comparison threshold `hourlyData.get(max)?.[0] || 0` is always 0. -/
theorem recommendationsNameLastIteratedSlot :
    (analyzePatternsFromHistory histC1).map EnergyPattern.recommendations =
        [["Your peak energy hour is 10:00 - schedule important tasks then"],
         ["Tuesday is your most productive day"]] ∧
      (buildHourlyData histC1).map (fun e => (e.1, e.2.energySum / (e.2.count : ℚ))) =
        [(9, 5), (10, 1)] ∧
      (buildWeeklyData histC1).map (fun e => (e.1, e.2.energySum / (e.2.count : ℚ))) =
        [(4, 3), (5, 1), (6, 1), (0, 1), (1, 1), (2, 1)] ∧
      getDayName 4 = "Thursday" := by
  have hH : buildHourlyData histC1 = [(9, ⟨0, 1, 5⟩), (10, ⟨0, 6, 6⟩)] := by
    norm_num [histC1, buildHourlyData, bumpHour, jsGetHours, energyLevelToNumber]
  have hW : buildWeeklyData histC1 =
      [(4, ⟨6, 2⟩), (5, ⟨1, 1⟩), (6, ⟨1, 1⟩), (0, ⟨1, 1⟩), (1, ⟨1, 1⟩), (2, ⟨1, 1⟩)] := by
    norm_num [histC1, buildWeeklyData, bumpDay, jsGetDay, energyLevelToNumber]
  have hrecD : generateDailyRecommendations (buildHourlyData histC1) =
      ["Your peak energy hour is 10:00 - schedule important tasks then"] := by
    rw [hH]
    norm_num [generateDailyRecommendations, aggIndexZeroOrZero]
    decide
  have hrecW : generateWeeklyRecommendations (buildWeeklyData histC1) =
      ["Tuesday is your most productive day"] := by
    rw [hW]
    norm_num [generateWeeklyRecommendations, aggIndexZeroOrZero, getDayName]
    decide
  refine ⟨?_, ?_, ?_, by decide⟩
  · unfold analyzePatternsFromHistory
    rw [if_neg (by decide)]
    simp only [List.map_cons, List.map_nil]
    rw [hrecD, hrecW]
  · rw [hH]
    norm_num
  · rw [hW]
    norm_num

/-- C2: on a profile whose daily pattern has average energy 5 at 6 AM (label
"6:00") and 2 at 6 PM (label "18:00"), the intended classification is
early-bird (morning 5/4 exceeds evening 2/4 by more than 0.5), but the code's
lexical filter rejects "6:00" against the bound "10:00", so the morning sum is
0 and the classifier returns `flexible` with confidence 0.7. -/
theorem personaLexicalFilterExcludesMorningHour :
    determineUserPersona profileC2 = flexiblePersona ∧
      jsStrLe "06:00" "6:00" = true ∧
      jsStrLe "6:00" "10:00" = false := by
  refine ⟨?_, by decide, by decide⟩
  have hf : profileC2.energyPatterns.find? (fun p => p.type = PatternType.daily) =
      some dailyC2 := by decide
  have hm : dailyC2.pattern.filter
      (fun p => jsStrLe "06:00" p.timeSlot && jsStrLe p.timeSlot "10:00") = [] := by decide
  have he : dailyC2.pattern.filter
      (fun p => jsStrLe "18:00" p.timeSlot && jsStrLe p.timeSlot "22:00") =
      [⟨"18:00", 2, 1⟩] := by decide
  unfold determineUserPersona
  rw [hf]
  simp only [hm, he, List.foldl_cons, List.foldl_nil]
  norm_num

/-- C7: with feedback `[{focusRating: 5}]` and an empty history, the metrics
aggregator returns `focusScore = 100` and `completionRate = 0` as claimed, but
`consistencyScore` is `NaN` (modelled `none`): the empty window makes the
average and variance `0 / 0 = NaN`, and `Math.max(0, 100 - NaN * 20)` is
`NaN`, not 0. -/
theorem metricsEmptyHistoryConsistencyNaN :
    calculateProductivityMetrics profileC7 [feedbackC7] [] =
      { focusScore := some 100
        completionRate := some 0
        consistencyScore := none
        energyUtilization := some 50
        adaptationSuccess := some 75
        streakQuality := some 80
        timeOptimization := some 70 } := by
  unfold calculateProductivityMetrics
  norm_num [profileC7, feedbackC7, jsDivN, jsAddN, jsSubN, jsMulN, jsMaxN, jsRoundN,
    calculateEnergyUtilization]

/-- C5: every time slot emitted by `calculateOptimalStudyTimes` has average
energy at least 3 and comes from an hourly aggregate whose completion rate is
at least 0.7. -/
theorem optimalStudyTimesThresholds (history : List EnergyDataPoint) (slot : TimeSlot)
    (hmem : slot ∈ calculateOptimalStudyTimes history) :
    3 ≤ slot.energyLevel ∧
      ∃ data : PerfAgg, (slot.startHour, data) ∈ buildHourlyPerformance history ∧
        slot.energyLevel = data.energySum / (data.count : ℚ) ∧
        7 / 10 ≤ data.completionRate / (data.count : ℚ) := by
  simp only [calculateOptimalStudyTimes] at hmem
  split at hmem
  · exact absurd hmem (List.not_mem_nil slot)
  · rw [List.mem_mergeSort, List.mem_filterMap] at hmem
    obtain ⟨e, he, hsome⟩ := hmem
    simp only [slotForHour] at hsome
    split at hsome
    · rename_i hcond
      injection hsome with hs
      subst hs
      exact ⟨hcond.1, e.2, by simpa using he, rfl, hcond.2⟩
    · exact Option.noConfusion hsome

/-- C5 witness: on `history7` (seven completed high-energy samples at 09:00)
the selector emits exactly `slot9`, which satisfies both thresholds. -/
theorem optimalStudyTimesThresholds_witness :
    slot9 ∈ calculateOptimalStudyTimes history7 ∧
      (3 ≤ slot9.energyLevel ∧
        ∃ data : PerfAgg, (slot9.startHour, data) ∈ buildHourlyPerformance history7 ∧
          slot9.energyLevel = data.energySum / (data.count : ℚ) ∧
          7 / 10 ≤ data.completionRate / (data.count : ℚ)) := by
  have hperf : buildHourlyPerformance history7 = [(9, ⟨28, 0, 7, 7⟩)] := by
    norm_num [history7, buildHourlyPerformance, bumpPerf, jsGetHours, energyLevelToNumber]
  have hcalc : calculateOptimalStudyTimes history7 = [slot9] := by
    unfold calculateOptimalStudyTimes
    rw [if_neg (by decide)]
    rw [hperf]
    norm_num [slotForHour, calculateSuitabilityScores, slot9, List.filterMap, min_def]
  have hmem : slot9 ∈ calculateOptimalStudyTimes history7 := by
    rw [hcalc]
    exact List.mem_singleton_self _
  exact ⟨hmem, optimalStudyTimesThresholds history7 slot9 hmem⟩

/-- C6 counterexample: at level very-low with no tasks and no optimal windows
but four medium samples recorded in the last hour, the generator returns two
suggestions (the low-energy one and the break one), not exactly one. -/
theorem verylowWithRecentActivityTwoSuggestions :
    generateSmartSuggestions ueC6 [] [] 4000000 =
        [lowEnergySuggestion 4000000, breakSuggestion 4000000] ∧
      (generateSmartSuggestions ueC6 [] [] 4000000).length = 2 := by decide

/-- C6 amended: at level very-low, with an empty task list and empty optimal
study times, and an energy history that does not trigger the break rule
(fewer than 4 samples in the last 60 minutes, or one of them at level low),
the generator returns exactly the low-energy suggestion, priority high. -/
theorem verylowOnlyLowEnergySuggestion (ue : RealTimeUserExperience)
    (studyPlans : List StudyPlan) (now : Int)
    (hlevel : ue.energyProfile.currentEnergyLevel = EnergyLevel.veryLow)
    (hopt : ue.energyProfile.optimalStudyTimes = [])
    (hrecent :
      (ue.energyProfile.energyHistory.filter
          (fun point => now - 60 * 60 * 1000 < point.timestamp)).length < 4 ∨
        ∃ point ∈ ue.energyProfile.energyHistory.filter
            (fun point => now - 60 * 60 * 1000 < point.timestamp),
          point.energyLevel = EnergyLevel.low) :
    generateSmartSuggestions ue [] studyPlans now = [lowEnergySuggestion now] ∧
      (lowEnergySuggestion now).priority = Priority.high := by
  refine ⟨?_, rfl⟩
  have hbreak : ¬ (4 ≤ (ue.energyProfile.energyHistory.filter
      (fun point => now - 60 * 60 * 1000 < point.timestamp)).length ∧
      ((ue.energyProfile.energyHistory.filter
          (fun point => now - 60 * 60 * 1000 < point.timestamp)).any
        fun point => point.energyLevel = EnergyLevel.low) = false) := by
    rintro ⟨hlen, hany⟩
    rcases hrecent with h | ⟨pt, hptmem, hptlow⟩
    · omega
    · have := List.any_eq_false.mp hany pt hptmem
      simp [hptlow] at this
  simp only [generateSmartSuggestions, hlevel, hopt, List.filter_nil, List.length_nil,
    List.find?_nil]
  rw [if_neg hbreak]
  simp

/-- C6 amended witness: with an empty history the generator returns exactly
the low-energy suggestion. -/
theorem verylowOnlyLowEnergySuggestion_witness :
    generateSmartSuggestions ueC6w [] [] 0 = [lowEnergySuggestion 0] ∧
      (lowEnergySuggestion 0).priority = Priority.high :=
  verylowOnlyLowEnergySuggestion ueC6w [] 0 (by decide) (by decide) (Or.inl (by decide))

/-- C8: whenever at least 4 samples lie strictly within the last 60 minutes
and none of them is at the literal level low (very-low does not block the
rule), the generator's result contains the break suggestion, priority
medium. -/
theorem breakSuggestionIncluded (ue : RealTimeUserExperience) (tasks : List Task)
    (studyPlans : List StudyPlan) (now : Int)
    (hlen : 4 ≤ (ue.energyProfile.energyHistory.filter
        (fun point => now - 60 * 60 * 1000 < point.timestamp)).length)
    (hnolow : ∀ point ∈ ue.energyProfile.energyHistory.filter
        (fun point => now - 60 * 60 * 1000 < point.timestamp),
      point.energyLevel ≠ EnergyLevel.low) :
    breakSuggestion now ∈ generateSmartSuggestions ue tasks studyPlans now ∧
      (breakSuggestion now).priority = Priority.medium := by
  refine ⟨?_, rfl⟩
  have hany : ((ue.energyProfile.energyHistory.filter
      (fun point => now - 60 * 60 * 1000 < point.timestamp)).any
      fun point => point.energyLevel = EnergyLevel.low) = false := by
    rw [List.any_eq_false]
    intro pt hpt
    simpa using hnolow pt hpt
  have hc : 4 ≤ (ue.energyProfile.energyHistory.filter
      (fun point => now - 60 * 60 * 1000 < point.timestamp)).length ∧
      ((ue.energyProfile.energyHistory.filter
          (fun point => now - 60 * 60 * 1000 < point.timestamp)).any
        fun point => point.energyLevel = EnergyLevel.low) = false := ⟨hlen, hany⟩
  simp only [generateSmartSuggestions]
  refine List.mem_append_right _ (List.mem_append_right _ (List.mem_append_right _ ?_))
  rw [if_pos hc]
  exact List.mem_singleton_self _

/-- C8 witness: with four medium samples recorded in the last hour, the break
suggestion is produced with priority medium. -/
theorem breakSuggestionIncluded_witness :
    breakSuggestion 4000000 ∈ generateSmartSuggestions ueC8 [] [] 4000000 ∧
      (breakSuggestion 4000000).priority = Priority.medium :=
  breakSuggestionIncluded ueC8 [] [] 4000000 (by decide) (by decide)

end EnergyMgmt
